import Mathlib

/-!
Verification of the measurement and timing engine of `gps-crono` (src/App.tsx).

The source is a single React Native component.  The algorithmic core is:
  * `KMH` / `clamp` utilities,
  * the `EmaFilter` exponential smoothing class,
  * `haversineMeters` great-circle distance,
  * the `watchPositionAsync` callback, which drives the whole engine once per
    location sample, and
  * the control commands `resetAll`, `start`, `stop`.

The callback is a closure: the React state variables `armed`, `t0` and
`distanceM` that it reads directly are the values captured when the closure was
created (at `start()` time), while the functional updaters
(`setMaxKmh (m => ...)`, `setDistanceM (x => ...)`, `setSplits (prev => ...)`,
`setAvgKmh (curr => ...)`) and the refs (`ema`, `lastPoint`) see current values.
The embedding makes this explicit: `ClosureEnv` holds the captured values and
`callbackStep` threads the live component state.

Numbers: speeds, filter values and coefficients are embedded as `ℚ` (exact
rational arithmetic, executable); coordinates and distances, which go through
trigonometric functions, as `ℝ`.  Timestamps are `ℤ` milliseconds.
-/

namespace GpsCrono

/-- Source: `const KMH = (mps) => (mps ?? 0) * 3.6`. -/
def KMH (mps : Option ℚ) : ℚ := mps.getD 0 * 3.6

/-- Source: `const clamp = (v, a, b) => Math.max(a, Math.min(b, v))`. -/
def clamp (v a b : ℚ) : ℚ := max a (min b v)

/-- State of the `EmaFilter` class: the coefficient fixed at construction and
the optional stored smoothed value `y` (initially `null`). -/
structure EmaFilter where
  alpha : ℚ
  y : Option ℚ
  deriving DecidableEq, Repr

/-- Source: `constructor(alpha = 0.25) { this.alpha = clamp(alpha, 0.05, 0.9); }`
with `y` starting as `null`. -/
def EmaFilter.make (alpha : ℚ) : EmaFilter :=
  { alpha := clamp alpha 0.05 0.9, y := none }

/-- Source: `next(x) { this.y = this.y === null ? x : this.alpha * x + (1 - this.alpha) * this.y; return this.y; }`
Returns the emitted value together with the updated filter state. -/
def EmaFilter.next (f : EmaFilter) (x : ℚ) : ℚ × EmaFilter :=
  let y := match f.y with
    | none => x
    | some y0 => f.alpha * x + (1 - f.alpha) * y0
  (y, { f with y := some y })

/-- Source: `reset() { this.y = null; }`. -/
def EmaFilter.reset (f : EmaFilter) : EmaFilter := { f with y := none }

/-- Source: `const SPEED_THRESHOLDS = [40, 60, 80, 100, 120, 140, 160, 180, 200]`. -/
def SPEED_THRESHOLDS : List ℚ := [40, 60, 80, 100, 120, 140, 160, 180, 200]

/-- Source: `const STOP_KMH = 1.0`. -/
def STOP_KMH : ℚ := 1.0

/-- Source: `const MOVING_KMH = 3.0`. -/
def MOVING_KMH : ℚ := 3.0

/-- Source: `interface Split { target: number; t: number | null; }`. -/
structure Split where
  target : ℚ
  t : Option ℤ
  deriving DecidableEq, Repr

/-- The fresh split table: `SPEED_THRESHOLDS.map(v => ({ target: v, t: null }))`. -/
def freshSplits : List Split := SPEED_THRESHOLDS.map fun v => { target := v, t := none }

/-- The `setSplits` updater of the callback (the spec calls it
`observe(splits, t0, now, smoothedKmh)`):

```
setSplits((prev) => {
  if (t0 === null) return prev;
  const dt = now - t0;
  return prev.map((s) => {
    if (s.t !== null) return s;
    if (speedKmh >= s.target) return { ...s, t: dt };
    return s;
  });
});
```

In the source `t0` is the closure-captured value; here it is a parameter. -/
def observe (prev : List Split) (t0 : Option ℤ) (now : ℤ) (speedKmh : ℚ) :
    List Split :=
  match t0 with
  | none => prev
  | some t0v =>
    let dt := now - t0v
    prev.map fun s =>
      if s.t ≠ none then s
      else if speedKmh ≥ s.target then { s with t := some dt }
      else s

/-- The launch (arm → running) logic of the callback:

```
if (armed && t0 === null) {
  if (speedKmh <= STOP_KMH) {
    // still stopped
  } else if (speedKmh >= MOVING_KMH) {
    setT0(now);
  }
}
```

Returns the new value of the `t0` state.  `armed` and `t0Env` are the
closure-captured values the guard reads; `t0State` is the current `t0` state
that `setT0` overwrites. -/
def launchStep (armed : Bool) (t0Env : Option ℤ) (t0State : Option ℤ)
    (speedKmh : ℚ) (now : ℤ) : Option ℤ :=
  if armed ∧ t0Env = none then
    if speedKmh ≤ STOP_KMH then t0State
    else if speedKmh ≥ MOVING_KMH then some now
    else t0State
  else t0State

/-- Folding the launch logic over a list of (smoothed speed, timestamp) samples,
threading `t0` (used for the Armed-state scenario, where the captured and the
threaded `t0` coincide while no transition has happened). -/
def launchRun (samples : List (ℚ × ℤ)) : Option ℤ :=
  samples.foldl (fun t0 s => launchStep true t0 t0 s.1 s.2) none

/-- An entry whose `t` is already set is returned by `observe` literally
unchanged, at the same position. -/
lemma observe_preserves_set {prev : List Split} {i : ℕ} {s : Split}
    (hs : prev[i]? = some s) (ht : s.t ≠ none)
    (t0 : Option ℤ) (now : ℤ) (v : ℚ) :
    (observe prev t0 now v)[i]? = some s := by
  cases t0 with
  | none => simpa [observe] using hs
  | some a =>
    simp only [observe, List.getElem?_map, hs, Option.map_some']
    simp [ht]

noncomputable section

/-- JS `Math.atan2(y, x)` on finite reals (the `y = 0, x = 0` case returns `0`,
matching `Math.atan2(+0, +0)`). -/
def atan2 (y x : ℝ) : ℝ :=
  if 0 < x then Real.arctan (y / x)
  else if x < 0 then
    (if 0 ≤ y then Real.arctan (y / x) + Real.pi else Real.arctan (y / x) - Real.pi)
  else
    (if 0 < y then Real.pi / 2 else if y < 0 then -(Real.pi / 2) else 0)

/-- Source: `const toRad = (d) => (d * Math.PI) / 180`. -/
def toRad (d : ℝ) : ℝ := d * Real.pi / 180

/-- The intermediate value `a` of `haversineMeters`:
`Math.sin(dLat/2)**2 + Math.cos(toRad(lat1)) * Math.cos(toRad(lat2)) * Math.sin(dLon/2)**2`. -/
def haversineA (lat1 lon1 lat2 lon2 : ℝ) : ℝ :=
  Real.sin (toRad (lat2 - lat1) / 2) ^ 2 +
    Real.cos (toRad lat1) * Real.cos (toRad lat2) * Real.sin (toRad (lon2 - lon1) / 2) ^ 2

/-- Source: `haversineMeters(lat1, lon1, lat2, lon2)` with `R = 6371000` and
`c = 2 * Math.atan2(Math.sqrt(a), Math.sqrt(1 - a))`, returning `R * c`. -/
def haversineMeters (lat1 lon1 lat2 lon2 : ℝ) : ℝ :=
  6371000 * (2 * atan2 (Real.sqrt (haversineA lat1 lon1 lat2 lon2))
    (Real.sqrt (1 - haversineA lat1 lon1 lat2 lon2)))

end

lemma atan2_nonneg {y : ℝ} (x : ℝ) (hy : 0 ≤ y) : 0 ≤ atan2 y x := by
  unfold atan2
  split_ifs with h1 h2 h3
  · have hq : 0 ≤ y / x := div_nonneg hy h1.le
    have h := Real.arctan_strictMono.monotone hq
    rwa [Real.arctan_zero] at h
  all_goals linarith [Real.neg_pi_div_two_lt_arctan (y / x), Real.pi_pos]

lemma sin_sq_toRad_swap (u v : ℝ) :
    Real.sin (toRad (u - v) / 2) ^ 2 = Real.sin (toRad (v - u) / 2) ^ 2 := by
  have h : toRad (u - v) / 2 = -(toRad (v - u) / 2) := by unfold toRad; ring
  rw [h, Real.sin_neg]
  ring

lemma haversineA_symm (lat1 lon1 lat2 lon2 : ℝ) :
    haversineA lat1 lon1 lat2 lon2 = haversineA lat2 lon2 lat1 lon1 := by
  unfold haversineA
  rw [sin_sq_toRad_swap lat2 lat1, sin_sq_toRad_swap lon2 lon1,
    mul_comm (Real.cos (toRad lat1)) (Real.cos (toRad lat2))]

lemma haversineA_self (lat lon : ℝ) : haversineA lat lon lat lon = 0 := by
  simp [haversineA, toRad]

lemma haversineMeters_symm (lat1 lon1 lat2 lon2 : ℝ) :
    haversineMeters lat1 lon1 lat2 lon2 = haversineMeters lat2 lon2 lat1 lon1 := by
  unfold haversineMeters
  rw [haversineA_symm]

lemma haversineMeters_self (lat lon : ℝ) : haversineMeters lat lon lat lon = 0 := by
  unfold haversineMeters
  rw [haversineA_self]
  norm_num [atan2, Real.arctan_zero]

lemma haversineMeters_nonneg (lat1 lon1 lat2 lon2 : ℝ) :
    0 ≤ haversineMeters lat1 lon1 lat2 lon2 := by
  unfold haversineMeters
  have h := atan2_nonneg (Real.sqrt (1 - haversineA lat1 lon1 lat2 lon2))
    (Real.sqrt_nonneg (haversineA lat1 lon1 lat2 lon2))
  nlinarith

/-- Claim C8: for coordinates in valid latitude/longitude ranges, the
geo-distance is symmetric, non-negative, and zero on equal endpoints. -/
theorem haversine_symm_nonneg_self (lat1 lon1 lat2 lon2 : ℝ)
    (h1 : -90 ≤ lat1) (h2 : lat1 ≤ 90) (h3 : -180 ≤ lon1) (h4 : lon1 ≤ 180)
    (h5 : -90 ≤ lat2) (h6 : lat2 ≤ 90) (h7 : -180 ≤ lon2) (h8 : lon2 ≤ 180) :
    haversineMeters lat1 lon1 lat2 lon2 = haversineMeters lat2 lon2 lat1 lon1
    ∧ 0 ≤ haversineMeters lat1 lon1 lat2 lon2
    ∧ haversineMeters lat1 lon1 lat1 lon1 = 0 :=
  ⟨haversineMeters_symm lat1 lon1 lat2 lon2,
    haversineMeters_nonneg lat1 lon1 lat2 lon2,
    haversineMeters_self lat1 lon1⟩

/-- Witness for `haversine_symm_nonneg_self` at concrete in-range coordinates. -/
theorem haversine_symm_nonneg_self_witness :
    haversineMeters 10 20 30 40 = haversineMeters 30 40 10 20
    ∧ 0 ≤ haversineMeters 10 20 30 40
    ∧ haversineMeters 10 20 10 20 = 0 :=
  haversine_symm_nonneg_self 10 20 30 40
    (by norm_num) (by norm_num) (by norm_num) (by norm_num)
    (by norm_num) (by norm_num) (by norm_num) (by norm_num)

/-- Claim C2: while `Armed` with `t0` unset, a sample with smoothed speed `v`
sets `t0 = now` iff `v ≥ MOVING_KMH`; speeds `≤ STOP_KMH` and speeds strictly
between the two thresholds leave `t0` unset; and over the Armed-state smoothed
speed sequence `[0, 0.5, 2.0, 0.5, 4.0]` the transition happens exactly on the
final sample with value `4.0`. -/
theorem armed_launch_hysteresis :
    (∀ (v : ℚ) (now : ℤ), launchStep true none none v now = some now ↔ MOVING_KMH ≤ v)
    ∧ (∀ (v : ℚ) (now : ℤ), v ≤ STOP_KMH → launchStep true none none v now = none)
    ∧ (∀ (v : ℚ) (now : ℤ), STOP_KMH < v → v < MOVING_KMH →
        launchStep true none none v now = none)
    ∧ (∀ n1 n2 n3 n4 n5 : ℤ,
        launchRun [(0, n1), (1/2, n2), (2, n3), (1/2, n4), (4, n5)] = some n5
        ∧ launchRun [(0, n1), (1/2, n2), (2, n3), (1/2, n4)] = none) := by
  have hstep : ∀ (v : ℚ) (now : ℤ), launchStep true none none v now =
      if v ≤ STOP_KMH then none else if v ≥ MOVING_KMH then some now else none := by
    intro v now
    simp [launchStep]
  refine ⟨?_, ?_, ?_, ?_⟩
  · intro v now
    rw [hstep]
    constructor
    · intro h
      by_cases h1 : v ≤ STOP_KMH
      · simp [h1] at h
      · by_cases h2 : v ≥ MOVING_KMH
        · exact h2
        · simp [h1, h2] at h
    · intro h
      have h1 : ¬ v ≤ STOP_KMH := by
        simp only [STOP_KMH, MOVING_KMH] at h ⊢
        intro hc
        linarith
      simp [h1, h]
  · intro v now h
    rw [hstep]
    simp [h]
  · intro v now h1 h2
    rw [hstep]
    have h1' : ¬ v ≤ STOP_KMH := not_le.mpr h1
    have h2' : ¬ v ≥ MOVING_KMH := not_le.mpr h2
    simp [h1', h2']
  · intro n1 n2 n3 n4 n5
    constructor <;> norm_num [launchRun, launchStep, STOP_KMH, MOVING_KMH]

/-- Witness for `armed_launch_hysteresis` at concrete speeds. -/
theorem armed_launch_hysteresis_witness :
    launchStep true none none (1/2) 7 = none
    ∧ launchStep true none none 2 7 = none
    ∧ launchStep true none none 4 7 = some 7 := by
  refine ⟨armed_launch_hysteresis.2.1 (1/2) 7 (by norm_num [STOP_KMH]),
    armed_launch_hysteresis.2.2.1 2 7 (by norm_num [STOP_KMH]) (by norm_num [MOVING_KMH]),
    (armed_launch_hysteresis.1 4 7).mpr (by norm_num [MOVING_KMH])⟩

/-- Claim C3: `observe` is a no-op when `t0` is unset; with `t0 = some a` it
sets `t = now - a` on exactly the entries that are unset and whose target is
at most the smoothed speed, leaving set entries unchanged; and a set entry is
never changed by any further sequence of `observe` calls (write-once). -/
theorem observe_split_tracker :
    (∀ (prev : List Split) (now : ℤ) (v : ℚ), observe prev none now v = prev)
    ∧ (∀ (prev : List Split) (a now : ℤ) (v : ℚ),
        observe prev (some a) now v =
          prev.map fun s =>
            if s.t = none ∧ s.target ≤ v then { s with t := some (now - a) } else s)
    ∧ (∀ (updates : List (Option ℤ × ℤ × ℚ)) (prev : List Split) (i : ℕ) (s : Split),
        prev[i]? = some s → s.t ≠ none →
        (updates.foldl (fun acc u => observe acc u.1 u.2.1 u.2.2) prev)[i]? = some s) := by
  refine ⟨?_, ?_, ?_⟩
  · intro prev now v
    simp [observe]
  · intro prev a now v
    simp only [observe]
    congr 1
    funext s
    by_cases ht : s.t = none
    · by_cases hv : s.target ≤ v
      · simp [ht, hv, ge_iff_le]
      · simp [ht, hv, ge_iff_le]
    · simp [ht]
  · intro updates
    induction updates with
    | nil => intro prev i s hs _; simpa using hs
    | cons u rest ih =>
      intro prev i s hs ht
      exact ih _ i s (observe_preserves_set hs ht u.1 u.2.1 u.2.2) ht

/-- Witness for `observe_split_tracker`: a set entry survives further calls. -/
theorem observe_split_tracker_witness :
    (([(some 0, 1000, 100), (some 0, 2000, 0), (some 0, 3000, 200)] :
        List (Option ℤ × ℤ × ℚ)).foldl
        (fun acc u => observe acc u.1 u.2.1 u.2.2)
        [{ target := 40, t := some 5 }, { target := 60, t := none }])[0]? =
      some { target := 40, t := some 5 } := by
  exact observe_split_tracker.2.2
    [(some 0, 1000, 100), (some 0, 2000, 0), (some 0, 3000, 200)]
    [{ target := 40, t := some 5 }, { target := 60, t := none }] 0
    { target := 40, t := some 5 } (by rfl) (by simp)

/-- The coordinate fields of a location fix that the callback uses
(`coords.latitude`, `coords.longitude`, `coords.speed` in m/s which may be
null, `coords.accuracy`, `coords.satellitesUsed`). -/
structure Coords where
  latitude : ℝ
  longitude : ℝ
  speed : Option ℚ
  accuracy : Option ℚ
  satellitesUsed : Option ℕ

/-- One location fix as delivered to the `watchPositionAsync` callback. -/
structure LocationSample where
  coords : Coords
  timestamp : ℤ

/-- The React state variables the callback closure reads directly — `armed`,
`t0` and `distanceM` — hold the values captured when `start()` created the
closure, not the live values; `ClosureEnv` records those captured values. -/
structure ClosureEnv where
  armed : Bool
  t0 : Option ℤ
  distanceM : ℝ

/-- The component's React state and refs that the engine reads and writes. -/
structure AppState where
  running : Bool
  armed : Bool
  t0 : Option ℤ
  splits : List Split
  maxKmh : ℚ
  avgKmh : ℝ
  currKmh : ℚ
  distanceM : ℝ
  elapsedMs : ℤ
  fixInfo : Option (Option ℚ × Option ℕ)
  lastPoint : Option (ℝ × ℝ)
  ema : EmaFilter
  subActive : Bool

noncomputable section

/-- One invocation of the `watchPositionAsync` callback (src/App.tsx lines
104-153).  Functional state updaters (`setMaxKmh (m => ...)`,
`setDistanceM (x => ...)`, `setSplits (prev => ...)`, `setAvgKmh (curr => ...)`)
and the refs `ema` / `lastPoint` act on the live state `s`; the direct reads of
`armed`, `t0` and `distanceM` use the captured values in `env`. -/
def callbackStep (env : ClosureEnv) (s : AppState) (loc : LocationSample) :
    AppState :=
  let speedKmhRaw := KMH loc.coords.speed
  let p := s.ema.next speedKmhRaw
  let speedKmh := p.1
  let now := loc.timestamp
  let distanceM' := match s.lastPoint with
    | some q => s.distanceM +
        haversineMeters q.1 q.2 loc.coords.latitude loc.coords.longitude
    | none => s.distanceM
  let t0' := launchStep env.armed env.t0 s.t0 speedKmh now
  let splits' := observe s.splits env.t0 now speedKmh
  let elapsedMs' := match env.t0 with
    | some a => now - a
    | none => s.elapsedMs
  let avgKmh' := match env.t0 with
    | none => s.avgKmh
    | some a =>
      let secs : ℚ := ((now - a : ℤ) : ℚ) / 1000
      if secs ≤ 0 then 0
      else (env.distanceM / 1000) / ((secs : ℝ) / 3600)
  { s with
    fixInfo := some (loc.coords.accuracy, loc.coords.satellitesUsed)
    currKmh := speedKmh
    maxKmh := max s.maxKmh speedKmh
    distanceM := distanceM'
    lastPoint := some (loc.coords.latitude, loc.coords.longitude)
    t0 := t0'
    splits := splits'
    elapsedMs := elapsedMs'
    avgKmh := avgKmh'
    ema := p.2 }

/-- Feeding a whole list of samples to one subscription: the closure values
`env` are fixed for the subscription's lifetime while the state is threaded. -/
def runCallbacks (env : ClosureEnv) (s : AppState) (locs : List LocationSample) :
    AppState :=
  locs.foldl (callbackStep env) s

/-- The component's initial state (`useState` initials, `new EmaFilter(0.25)`,
null refs, no subscription). -/
def initState : AppState :=
  { running := false, armed := false, t0 := none, splits := freshSplits,
    maxKmh := 0, avgKmh := 0, currKmh := 0, distanceM := 0, elapsedMs := 0,
    fixInfo := none, lastPoint := none, ema := EmaFilter.make 0.25,
    subActive := false }

/-- Source `resetAll` (lines 79-86): zero every measurement, fresh splits,
reset the filter and `lastPoint`, drop the subscription.  (`fixInfo` is not
touched by the source.) -/
def resetAll (s : AppState) : AppState :=
  { s with
    running := false, armed := false, t0 := none, splits := freshSplits,
    maxKmh := 0, avgKmh := 0, currKmh := 0, distanceM := 0, elapsedMs := 0,
    ema := s.ema.reset, lastPoint := none, subActive := false }

/-- Source `start` (lines 88-93 and 155): no-op without permission; otherwise
arm, mark running, clear all measurements and the filter, and subscribe. -/
def start (hasPerm : Bool) (s : AppState) : AppState :=
  if hasPerm then
    { s with
      armed := true, running := true, splits := freshSplits,
      maxKmh := 0, avgKmh := 0, currKmh := 0, distanceM := 0, elapsedMs := 0,
      ema := s.ema.reset, lastPoint := none, t0 := none, subActive := true }
  else s

/-- Source `stop` (lines 158-162): drop the subscription and clear the
`running` / `armed` flags, leaving every measurement in place. -/
def stop (s : AppState) : AppState :=
  { s with subActive := false, running := false, armed := false }

end

lemma callbackStep_distanceM (env : ClosureEnv) (s : AppState)
    (loc : LocationSample) :
    (callbackStep env s loc).distanceM = match s.lastPoint with
      | some q => s.distanceM +
          haversineMeters q.1 q.2 loc.coords.latitude loc.coords.longitude
      | none => s.distanceM := rfl

lemma callbackStep_distance_mono (env : ClosureEnv) (s : AppState)
    (loc : LocationSample) :
    s.distanceM ≤ (callbackStep env s loc).distanceM := by
  rw [callbackStep_distanceM]
  cases h : s.lastPoint with
  | none => simp
  | some q =>
    simp only []
    linarith [haversineMeters_nonneg q.1 q.2 loc.coords.latitude
      loc.coords.longitude]

lemma runCallbacks_distance_mono (env : ClosureEnv) (locs : List LocationSample) :
    ∀ s : AppState, s.distanceM ≤ (runCallbacks env s locs).distanceM := by
  induction locs with
  | nil => intro s; exact le_refl _
  | cons l rest ih =>
    intro s
    calc s.distanceM ≤ (callbackStep env s l).distanceM :=
          callbackStep_distance_mono env s l
      _ ≤ (runCallbacks env (callbackStep env s l) rest).distanceM :=
          ih (callbackStep env s l)

/-- Claim C5: each ingested sample adds the haversine leg from the previous
coordinate when one exists, adds nothing on the first sample, always updates
`lastPoint` to the new coordinate, and `distanceM` never decreases across the
samples of a session. -/
theorem distance_accumulation (env : ClosureEnv) (s : AppState)
    (loc : LocationSample) :
    (∀ la lo : ℝ, s.lastPoint = some (la, lo) →
        (callbackStep env s loc).distanceM =
          s.distanceM + haversineMeters la lo loc.coords.latitude loc.coords.longitude)
    ∧ (s.lastPoint = none → (callbackStep env s loc).distanceM = s.distanceM)
    ∧ (callbackStep env s loc).lastPoint =
        some (loc.coords.latitude, loc.coords.longitude)
    ∧ s.distanceM ≤ (callbackStep env s loc).distanceM
    ∧ (∀ locs : List LocationSample,
        s.distanceM ≤ (runCallbacks env s locs).distanceM)
    ∧ (callbackStep env (start true s) loc).distanceM = 0 := by
  refine ⟨?_, ?_, rfl, callbackStep_distance_mono env s loc,
    fun locs => runCallbacks_distance_mono env locs s, ?_⟩
  · intro la lo h
    rw [callbackStep_distanceM, h]
  · intro h
    rw [callbackStep_distanceM, h]
  · rw [callbackStep_distanceM]
    have h : (start true s).lastPoint = none := rfl
    rw [h]
    rfl

/-- Witness for `distance_accumulation` at a concrete state and sample. -/
theorem distance_accumulation_witness :
    (callbackStep ⟨false, none, 0⟩
        { initState with lastPoint := some (10, 20), distanceM := 5 }
        ⟨⟨10, 20, some 10, none, none⟩, 1000⟩).distanceM =
      5 + haversineMeters 10 20 10 20 := by
  have h := (distance_accumulation ⟨false, none, 0⟩
    { initState with lastPoint := some (10, 20), distanceM := 5 }
    ⟨⟨10, 20, some 10, none, none⟩, 1000⟩).1 10 20 rfl
  simpa using h

/-- Claim C6: `resetAll` returns to `Idle` (not running, not armed, no time
origin), fresh unset splits, zeroed accumulators, cleared `lastPoint`, and an
unseeded filter whose next input re-seeds from the raw value. -/
theorem resetAll_clears (s : AppState) (x : ℚ) :
    (resetAll s).running = false ∧ (resetAll s).armed = false
    ∧ (resetAll s).t0 = none
    ∧ (resetAll s).splits = freshSplits
    ∧ ((resetAll s).splits.all fun e => e.t.isNone) = true
    ∧ (resetAll s).maxKmh = 0 ∧ (resetAll s).distanceM = 0
    ∧ (resetAll s).elapsedMs = 0 ∧ (resetAll s).avgKmh = 0
    ∧ (resetAll s).currKmh = 0
    ∧ (resetAll s).ema.y = none
    ∧ ((resetAll s).ema.next x).1 = x
    ∧ (resetAll s).lastPoint = none := by
  refine ⟨rfl, rfl, rfl, rfl, rfl, rfl, rfl, rfl, rfl, rfl, rfl, rfl, rfl⟩

/-- Claim C9: `stop` only drops the subscription and clears the
`running` / `armed` flags; every measurement, the splits, the time origin, the
filter and the last coordinate are left unchanged. -/
theorem stop_frame (s : AppState) :
    (stop s).running = false ∧ (stop s).armed = false
    ∧ (stop s).subActive = false
    ∧ (stop s).maxKmh = s.maxKmh ∧ (stop s).avgKmh = s.avgKmh
    ∧ (stop s).currKmh = s.currKmh ∧ (stop s).distanceM = s.distanceM
    ∧ (stop s).elapsedMs = s.elapsedMs ∧ (stop s).splits = s.splits
    ∧ (stop s).t0 = s.t0 ∧ (stop s).ema = s.ema
    ∧ (stop s).lastPoint = s.lastPoint ∧ (stop s).fixInfo = s.fixInfo := by
  refine ⟨rfl, rfl, rfl, rfl, rfl, rfl, rfl, rfl, rfl, rfl, rfl, rfl, rfl⟩

/-- Claim C10: `start` (with permission granted) performs a full measurement
reset before arming: fresh unset splits, zeroed accumulators, no time origin,
no last coordinate, unseeded filter — nothing from a previous session
persists. -/
theorem start_resets_measurements (s : AppState) (x : ℚ) :
    (start true s).armed = true ∧ (start true s).running = true
    ∧ (start true s).splits = freshSplits
    ∧ ((start true s).splits.all fun e => e.t.isNone) = true
    ∧ (start true s).maxKmh = 0 ∧ (start true s).avgKmh = 0
    ∧ (start true s).currKmh = 0 ∧ (start true s).distanceM = 0
    ∧ (start true s).elapsedMs = 0 ∧ (start true s).t0 = none
    ∧ (start true s).lastPoint = none ∧ (start true s).ema.y = none
    ∧ ((start true s).ema.next x).1 = x := by
  refine ⟨rfl, rfl, rfl, rfl, rfl, rfl, rfl, rfl, rfl, rfl, rfl, rfl, rfl⟩

/-- Claim C7: `next` seeds from the raw input when no prior value is stored,
otherwise blends with coefficient `alpha`; the effective `alpha` is the
construction argument clamped into `[0.05, 0.9]`, so `0.0` yields `0.05` and
`5.0` yields `0.9`. -/
theorem ema_filter_next_and_clamp :
    (∀ (f : EmaFilter) (x : ℚ), f.y = none → f.next x = (x, { f with y := some x }))
    ∧ (∀ (f : EmaFilter) (x y0 : ℚ), f.y = some y0 →
        f.next x = (f.alpha * x + (1 - f.alpha) * y0,
          { f with y := some (f.alpha * x + (1 - f.alpha) * y0) }))
    ∧ (∀ a : ℚ, 0.05 ≤ (EmaFilter.make a).alpha ∧ (EmaFilter.make a).alpha ≤ 0.9)
    ∧ (∀ a : ℚ, 0.05 ≤ a → a ≤ 0.9 → (EmaFilter.make a).alpha = a)
    ∧ (EmaFilter.make 0).alpha = 0.05
    ∧ (EmaFilter.make 5).alpha = 0.9 := by
  refine ⟨?_, ?_, ?_, ?_, ?_, ?_⟩
  · intro f x h
    simp [EmaFilter.next, h]
  · intro f x y0 h
    simp [EmaFilter.next, h]
  · intro a
    refine ⟨le_max_left _ _, max_le (by norm_num) (min_le_left _ _)⟩
  · intro a h1 h2
    simp only [EmaFilter.make, clamp]
    rw [min_eq_right h2, max_eq_right h1]
  · norm_num [EmaFilter.make, clamp]
  · norm_num [EmaFilter.make, clamp]

/-- Counterexample to claim C1: the callback performs no timestamp comparison,
so ingesting a second sample with the same `timestampMs` as the previous one
changes the snapshot (here `currKmh` moves from 36 to 45 through the filter)
instead of re-emitting it unchanged. -/
theorem dup_timestamp_changes_snapshot :
    (runCallbacks ⟨false, none, 0⟩ (start true initState)
        [⟨⟨0, 0, some 10, none, none⟩, 1000⟩, ⟨⟨0, 0, some 20, none, none⟩, 1000⟩]).currKmh
    ≠ (runCallbacks ⟨false, none, 0⟩ (start true initState)
        [⟨⟨0, 0, some 10, none, none⟩, 1000⟩]).currKmh := by
  norm_num [runCallbacks, callbackStep, start, initState, EmaFilter.make,
    EmaFilter.reset, EmaFilter.next, KMH, clamp, min_def, max_def, List.foldl]

/-- Claim C1 amended: the engine has no out-of-order handling at all — a sample
whose timestamp is not greater than the previous one is processed exactly like
any other: the filter is advanced on its raw speed, the maximum is updated with
the new smoothed value, and `lastPoint` moves to its coordinate. -/
theorem ingest_processes_every_sample (env : ClosureEnv) (s : AppState)
    (l1 l2 : LocationSample) (h : l2.timestamp ≤ l1.timestamp) :
    (runCallbacks env s [l1, l2]).currKmh
        = ((callbackStep env s l1).ema.next (KMH l2.coords.speed)).1
    ∧ (runCallbacks env s [l1, l2]).maxKmh
        = max (callbackStep env s l1).maxKmh
            ((callbackStep env s l1).ema.next (KMH l2.coords.speed)).1
    ∧ (runCallbacks env s [l1, l2]).lastPoint
        = some (l2.coords.latitude, l2.coords.longitude) := by
  refine ⟨rfl, rfl, rfl⟩

/-- Witness for `ingest_processes_every_sample` on equal timestamps. -/
theorem ingest_processes_every_sample_witness :
    (runCallbacks ⟨false, none, 0⟩ initState
        [⟨⟨0, 0, some 10, none, none⟩, 1000⟩, ⟨⟨3, 4, some 20, none, none⟩, 1000⟩]).lastPoint
      = some (3, 4) :=
  (ingest_processes_every_sample ⟨false, none, 0⟩ initState
    ⟨⟨0, 0, some 10, none, none⟩, 1000⟩ ⟨⟨3, 4, some 20, none, none⟩, 1000⟩
    (le_refl 1000)).2.2

/-- Claim C4 is contradicted by the code: the `setAvgKmh` updater reads the
closure-captured `t0` and `distanceM`, not the live values.  Here the live
state is mid-run (`t0 = some 0`, 100 m accumulated) while the closure captured
`t0 = null` (its value when `start()` subscribed), so the sample at
`now = 1000` leaves `avgKmh` at 0 even though the claimed formula over the
current values gives 360 km/h. -/
theorem avg_uses_stale_closure_values :
    (callbackStep ⟨false, none, 0⟩
        { initState with
          armed := true, running := true, t0 := some 0,
          distanceM := 100, lastPoint := some (0, 0) }
        ⟨⟨0, 0, some 10, none, none⟩, 1000⟩).t0 = some 0
    ∧ (callbackStep ⟨false, none, 0⟩
        { initState with
          armed := true, running := true, t0 := some 0,
          distanceM := 100, lastPoint := some (0, 0) }
        ⟨⟨0, 0, some 10, none, none⟩, 1000⟩).avgKmh = 0
    ∧ (callbackStep ⟨false, none, 0⟩
        { initState with
          armed := true, running := true, t0 := some 0,
          distanceM := 100, lastPoint := some (0, 0) }
        ⟨⟨0, 0, some 10, none, none⟩, 1000⟩).distanceM = 100
    ∧ ((callbackStep ⟨false, none, 0⟩
        { initState with
          armed := true, running := true, t0 := some 0,
          distanceM := 100, lastPoint := some (0, 0) }
        ⟨⟨0, 0, some 10, none, none⟩, 1000⟩).distanceM / 1000)
          / (((1000 : ℝ) - 0) / 3600000)
      ≠ (callbackStep ⟨false, none, 0⟩
        { initState with
          armed := true, running := true, t0 := some 0,
          distanceM := 100, lastPoint := some (0, 0) }
        ⟨⟨0, 0, some 10, none, none⟩, 1000⟩).avgKmh := by
  have hd : (callbackStep ⟨false, none, 0⟩
      { initState with
        armed := true, running := true, t0 := some 0,
        distanceM := 100, lastPoint := some (0, 0) }
      ⟨⟨0, 0, some 10, none, none⟩, 1000⟩).distanceM = 100 := by
    rw [callbackStep_distanceM]
    simp [initState, haversineMeters_self]
  have ha : (callbackStep ⟨false, none, 0⟩
      { initState with
        armed := true, running := true, t0 := some 0,
        distanceM := 100, lastPoint := some (0, 0) }
      ⟨⟨0, 0, some 10, none, none⟩, 1000⟩).avgKmh = 0 := rfl
  refine ⟨rfl, ha, hd, ?_⟩
  rw [hd, ha]
  norm_num

/-- Witness for `ema_filter_next_and_clamp` at concrete filter states. -/
theorem ema_filter_next_and_clamp_witness :
    (EmaFilter.mk (1/4) none).next 36 = (36, EmaFilter.mk (1/4) (some 36))
    ∧ (EmaFilter.mk (1/4) (some 36)).next 0 = (27, EmaFilter.mk (1/4) (some 27))
    ∧ (EmaFilter.make (1/4)).alpha = 1/4 := by
  refine ⟨ema_filter_next_and_clamp.1 (EmaFilter.mk (1/4) none) 36 rfl, ?_, ?_⟩
  · have h := ema_filter_next_and_clamp.2.1 (EmaFilter.mk (1/4) (some 36)) 0 36 rfl
    rw [h]
    norm_num
  · exact ema_filter_next_and_clamp.2.2.2.1 (1/4) (by norm_num) (by norm_num)

end GpsCrono
